import Mathlib

/-!
Shallow embedding of the `certgen` Go package (self-signed X.509 certificate
generation) and its CLI parameter construction, together with proofs about the
natural-language specification's claims.

Modelling conventions:
* Go `int` values (curve enum, key sizes) are `Int`; byte values are `Nat`.
* `time.Time` and `time.Duration` are modelled as `Int` (nanoseconds); the
  code only ever adds them (`ValidFrom.Add(ValidFor)`).
* Strings handled character-wise are `List Char`.
* The external cryptographic primitives from the Go standard library
  (`rsa.GenerateKey`, `ecdsa.GenerateKey`, `rand.Int`, `x509.CreateCertificate`,
  the key marshallers) are opaque parameters collected in a `CryptoEnv`;
  the repository's logic around them is embedded faithfully.
* `net.ParseIP` and `strings.Split` are embedded from the Go standard library
  sources (the classic pre-1.17 IP parser), since the repository's SAN
  classification depends on their exact behaviour.
-/

set_option autoImplicit false

/-- ECDSACurve represents the supported ECDSA curves (Go: `type ECDSACurve int`,
with constants produced by `iota`). -/
abbrev ECDSACurve := Int

/-- P224 selects the P-224 elliptic curve. -/
def P224 : ECDSACurve := 0

/-- P256 selects the P-256 elliptic curve. -/
def P256 : ECDSACurve := 1

/-- P384 selects the P-384 elliptic curve. -/
def P384 : ECDSACurve := 2

/-- P521 selects the P-521 elliptic curve. -/
def P521 : ECDSACurve := 3

/-- Embedding of Go `func (e ECDSACurve) String() string`. -/
def ECDSACurve.string (e : ECDSACurve) : String :=
  if e = P224 then "P224"
  else if e = P256 then "P256"
  else if e = P384 then "P384"
  else if e = P521 then "P521"
  else ""

/-- Embedding of Go `func ECDSACurveFromString(s string) (ECDSACurve, error)`;
the error is modelled as `Option String` (`none` = nil error). -/
def ECDSACurveFromString (s : String) : ECDSACurve × Option String :=
  if s = "P224" then (P224, none)
  else if s = "P256" then (P256, none)
  else if s = "P384" then (P384, none)
  else if s = "P521" then (P521, none)
  else (P224, some "Invalid or Not supported ECDSA Curve")

/-- CertParams collects all the parameters for generating an X509 certificate
(Go struct `CertParams`). -/
structure CertParams where
  Hosts : String
  ValidFrom : Int
  ValidFor : Int
  IsCA : Bool
  Rsa : Bool
  RsaBits : Int
  EcdsaCurve : ECDSACurve
  deriving DecidableEq

/-- Embedding of Go `func (cp *CertParams) notAfter() time.Time`:
`cp.ValidFrom.Add(cp.ValidFor)`. -/
def CertParams.notAfter (cp : CertParams) : Int :=
  cp.ValidFrom + cp.ValidFor

/-- Embedding of Go `func NewDefaultParams() *CertParams`; `time.Now()` is an
input. `365 * 24 * time.Hour` in nanoseconds. -/
def NewDefaultParams (now : Int) : CertParams :=
  { Hosts := "localhost"
    ValidFrom := now
    ValidFor := 365 * 24 * 3600 * 1000000000
    IsCA := false
    Rsa := true
    RsaBits := 2048
    EcdsaCurve := P256 }

/-! ### Go standard library: `strings.Split(s, ",")`

For a one-character separator, `strings.Split` cuts the string at every
occurrence of the separator, keeping empty segments; `Split("", ",") = [""]`. -/

/-- Embedding of `strings.Split(s, ",")` on the character list of `s`. -/
def splitComma : List Char → List (List Char)
  | [] => [[]]
  | c :: cs =>
    if c = ',' then [] :: splitComma cs
    else
      match splitComma cs with
      | [] => [[c]]
      | g :: gs => (c :: g) :: gs

/-! ### Go standard library: `net.ParseIP`

Faithful embedding of the classic `net` package IP parser (`dtoi`, `xtoi`,
`parseIPv4`, `parseIPv6`, zone splitting, and the `ParseIP` dispatch loop).
An IP address is its 16-byte representation, a `List Nat` of length 16;
IPv4 addresses are in their 4-in-6 mapped form as in Go's `IPv4()`. -/

/-- Overflow threshold `big = 0xFFFFFF` used by `dtoi` and `xtoi`. -/
def ipBig : Nat := 0xFFFFFF

/-- Loop of Go `dtoi`: decimal conversion; `i` is the index of the character
about to be inspected, `n` the value accumulated so far. Returns `(n, i, ok)`. -/
def dtoiGo : List Char → Nat → Nat → Nat × Nat × Bool
  | [], n, i => if i = 0 then (0, 0, false) else (n, i, true)
  | c :: rest, n, i =>
    if '0' ≤ c ∧ c ≤ '9' then
      let n2 := n * 10 + (c.toNat - '0'.toNat)
      if n2 ≥ ipBig then (ipBig, i, false)
      else dtoiGo rest n2 (i + 1)
    else if i = 0 then (0, 0, false)
    else (n, i, true)

/-- Embedding of Go `dtoi(s)`. -/
def dtoi (s : List Char) : Nat × Nat × Bool :=
  dtoiGo s 0 0

/-- Loop of Go `xtoi`: hexadecimal conversion, same conventions as `dtoiGo`. -/
def xtoiGo : List Char → Nat → Nat → Nat × Nat × Bool
  | [], n, i => if i = 0 then (0, 0, false) else (n, i, true)
  | c :: rest, n, i =>
    if '0' ≤ c ∧ c ≤ '9' then
      let n2 := n * 16 + (c.toNat - '0'.toNat)
      if n2 ≥ ipBig then (0, i, false) else xtoiGo rest n2 (i + 1)
    else if 'a' ≤ c ∧ c ≤ 'f' then
      let n2 := n * 16 + (c.toNat - 'a'.toNat) + 10
      if n2 ≥ ipBig then (0, i, false) else xtoiGo rest n2 (i + 1)
    else if 'A' ≤ c ∧ c ≤ 'F' then
      let n2 := n * 16 + (c.toNat - 'A'.toNat) + 10
      if n2 ≥ ipBig then (0, i, false) else xtoiGo rest n2 (i + 1)
    else if i = 0 then (0, 0, false)
    else (n, i, true)

/-- Embedding of Go `xtoi(s)`. -/
def xtoi (s : List Char) : Nat × Nat × Bool :=
  xtoiGo s 0 0

/-- Prefix of the 16-byte form of an IPv4 address (Go `v4InV6Prefix`). -/
def v4InV6Pre : List Nat := [0, 0, 0, 0, 0, 0, 0, 0, 0, 0, 0xff, 0xff]

/-- Field loop of Go `parseIPv4`: `fields` octets left to read; `first` is true
for the first octet (no leading dot expected); `acc` holds the octets read. -/
def parseIPv4Fields : Nat → Bool → List Char → List Nat → Option (List Nat)
  | 0, _, s, acc => if s.isEmpty then some acc else none
  | fields + 1, first, s, acc =>
    if s.isEmpty then none
    else
      match (if first then some s else
              match s with
              | '.' :: r => some r
              | _ => none) with
      | none => none
      | some s2 =>
        let r := dtoi s2
        if r.2.2 = false ∨ r.1 > 0xFF then none
        else parseIPv4Fields fields false (s2.drop r.2.1) (acc ++ [r.1])

/-- Embedding of Go `parseIPv4(s)`: produces the 16-byte v4-in-v6 form. -/
def parseIPv4 (s : List Char) : Option (List Nat) :=
  match parseIPv4Fields 4 true s [] with
  | none => none
  | some octets => some (v4InV6Pre ++ octets)

/-- Loop of Go `parseIPv6`: `fuel` bounds the iterations (the Go loop runs
`i < 16` with `i` advancing by at least 2 per iteration, so 8 suffices);
`acc` holds the bytes written so far (`acc.length = i`), `ellip` the ellipsis
position. Returns `(acc, i, ellip, rest)` on loop exit, `none` on parse
failure. -/
def parseIPv6Loop : Nat → List Char → List Nat → Nat → Option Nat →
    Option (List Nat × Nat × Option Nat × List Char)
  | 0, s, acc, i, ellip => some (acc, i, ellip, s)
  | fuel + 1, s, acc, i, ellip =>
    if i ≥ 16 then some (acc, i, ellip, s)
    else
      let r := xtoi s
      if r.2.2 = false ∨ r.1 > 0xFFFF then none
      else if s.get? r.2.1 = some '.' then
        if ellip = none ∧ i ≠ 12 then none
        else if i + 4 > 16 then none
        else
          match parseIPv4 s with
          | none => none
          | some ip4 => some (acc ++ ip4.drop 12, i + 4, ellip, [])
      else
        let acc2 := acc ++ [r.1 / 256, r.1 % 256]
        let i2 := i + 2
        let s2 := s.drop r.2.1
        if s2.isEmpty then some (acc2, i2, ellip, s2)
        else if s2.head? ≠ some ':' ∨ s2.length = 1 then none
        else
          let s3 := s2.drop 1
          if s3.head? = some ':' then
            if ellip.isSome then none
            else
              let s4 := s3.drop 1
              if s4.isEmpty then some (acc2, i2, some i2, s4)
              else parseIPv6Loop fuel s4 acc2 i2 (some i2)
          else parseIPv6Loop fuel s3 acc2 i2 ellip

/-- Embedding of Go `parseIPv6(s)` (without zone handling, as in the classic
parser where the zone has already been split off). -/
def parseIPv6 (s : List Char) : Option (List Nat) :=
  let lead := s.length ≥ 2 ∧ s.take 2 = [':', ':']
  let ellip : Option Nat := if lead then some 0 else none
  let s1 := if lead then s.drop 2 else s
  if lead ∧ s1.isEmpty then some (List.replicate 16 0)
  else
    match parseIPv6Loop 8 s1 [] 0 ellip with
    | none => none
    | some (acc, i, ell, rest) =>
      if ¬ rest.isEmpty then none
      else if i < 16 then
        match ell with
        | none => none
        | some e => some (acc.take e ++ List.replicate (16 - i) 0 ++ acc.drop e)
      else if ell.isSome then none
      else some acc

/-- Index of the last `'%'` in `s`, if any (Go `last(s, '%')`). -/
def lastPercent (s : List Char) : Option Nat :=
  (List.range s.length).foldl
    (fun best j => if s.get? j = some '%' then some j else best) none

/-- Embedding of Go `splitHostZone`: strip a `%zone` suffix when the last
`'%'` occurs at a positive index. -/
def splitHostZone (s : List Char) : List Char :=
  match lastPercent s with
  | some j => if j > 0 then s.take j else s
  | none => s

/-- Dispatch loop of Go `ParseIP`: scan for the first `'.'` or `':'`;
`full` is the whole input string. -/
def parseIPGo : List Char → List Char → Option (List Nat)
  | [], _ => none
  | c :: rest, full =>
    if c = '.' then parseIPv4 full
    else if c = ':' then parseIPv6 (splitHostZone full)
    else parseIPGo rest full

/-- Embedding of Go `net.ParseIP(s)`; `none` models the nil return. -/
def ParseIP (s : List Char) : Option (List Nat) :=
  parseIPGo s s

/-! ### Certificate template and key material -/

/-- Key usage bit `x509.KeyUsageDigitalSignature` (`1 << iota`, first). -/
def KeyUsageDigitalSignature : Nat := 1

/-- Key usage bit `x509.KeyUsageKeyEncipherment` (third). -/
def KeyUsageKeyEncipherment : Nat := 4

/-- Key usage bit `x509.KeyUsageCertSign` (sixth). -/
def KeyUsageCertSign : Nat := 32

/-- Extended key usage `x509.ExtKeyUsageServerAuth`. -/
def ExtKeyUsageServerAuth : Nat := 1

/-- The fields of Go's `x509.Certificate` that `genCertPair` sets. Times are
`Int` nanoseconds, `KeyUsage` a bit mask, IP addresses their 16-byte form. -/
structure Certificate where
  SerialNumber : Nat
  SubjectOrganization : List String
  NotBefore : Int
  NotAfter : Int
  KeyUsage : Nat
  ExtKeyUsage : List Nat
  BasicConstraintsValid : Bool
  IPAddresses : List (List Nat)
  DNSNames : List (List Char)
  IsCA : Bool
  deriving DecidableEq

/-- Private keys as held in the Go code's `priv interface{}`: an RSA key, an
ECDSA key (abstract key material as a `Nat` handle), or any other value
(`other`), with `Option` at use sites standing for the nil interface. -/
inductive PrivKey where
  | rsa (k : Nat)
  | ecdsa (k : Nat)
  | other
  deriving DecidableEq

/-- Public keys as returned by the Go code's `publicKey`. -/
inductive PubKey where
  | rsa (k : Nat)
  | ecdsa (k : Nat)
  deriving DecidableEq

/-- Embedding of Go `func publicKey(priv interface{}) interface{}`; the
`default` branch (including a nil interface) returns nil, i.e. `none`. -/
def publicKey : Option PrivKey → Option PubKey
  | some (PrivKey.rsa k) => some (PubKey.rsa k)
  | some (PrivKey.ecdsa k) => some (PubKey.ecdsa k)
  | _ => none

/-- The three error-wrapping sites of `genCertPair`, by `fmt.Errorf` format:
`keyGen` = "failed to generate private key: %s", `serialNum` = "failed to
generate serial number: %s", `createCert` = "Failed to create certificate:
%s". The wrapped standard-library error message is carried as a `String`. -/
inductive GenErr where
  | keyGen (msg : String)
  | serialNum (msg : String)
  | createCert (msg : String)
  deriving DecidableEq

/-- Opaque standard-library cryptographic primitives used by `genCertPair`
and the PEM encoders. Each is a function of the repository-visible inputs;
results model the Go returns (`Except` error = non-nil Go error). -/
structure CryptoEnv where
  rsaGenerateKey : Int → Except String Nat
  ecdsaGenerateKey : ECDSACurve → Except String Nat
  randInt : Nat → Except String Nat
  createCertificate : Certificate → Option PubKey → Option PrivKey →
    Except String (List Nat)
  marshalPKCS1PrivateKey : Nat → List Nat
  marshalECPrivateKey : Nat → Except String (List Nat)

/-- The serial number bound `new(big.Int).Lsh(big.NewInt(1), 128)`. -/
def serialNumberLimit : Nat :=
  Nat.shiftLeft 1 128

/-- One iteration of the SAN loop in `genCertPair`: append to `IPAddresses`
when `net.ParseIP` succeeds, else to `DNSNames`. -/
def sanStep (t : Certificate) (h : List Char) : Certificate :=
  match ParseIP h with
  | some ip => { t with IPAddresses := t.IPAddresses ++ [ip] }
  | none => { t with DNSNames := t.DNSNames ++ [h] }

/-- The `x509.Certificate` template built by `genCertPair` (lines 153-178):
the literal, the host loop, and the `IsCA` adjustment. -/
def mkTemplate (cp : CertParams) (serialNumber : Nat) : Certificate :=
  let template : Certificate :=
    { SerialNumber := serialNumber
      SubjectOrganization := ["Acme Co"]
      NotBefore := cp.ValidFrom
      NotAfter := CertParams.notAfter cp
      KeyUsage := KeyUsageKeyEncipherment ||| KeyUsageDigitalSignature
      ExtKeyUsage := [ExtKeyUsageServerAuth]
      BasicConstraintsValid := true
      IPAddresses := []
      DNSNames := []
      IsCA := false }
  let hosts := splitComma cp.Hosts.toList
  let template := hosts.foldl sanStep template
  if cp.IsCA then
    { template with IsCA := true
                    KeyUsage := template.KeyUsage ||| KeyUsageCertSign }
  else template

/-- Key selection phase of `genCertPair` (lines 127-142): the pair of the
`priv` and `err` variables after the `if`/`switch`. Note the ECDSA switch has
no default case, so an out-of-range curve leaves both at their zero values. -/
def genKeyStep (env : CryptoEnv) (cp : CertParams) :
    Option PrivKey × Option String :=
  if cp.Rsa then
    match env.rsaGenerateKey cp.RsaBits with
    | Except.ok k => (some (PrivKey.rsa k), none)
    | Except.error e => (none, some e)
  else if cp.EcdsaCurve = P224 then
    match env.ecdsaGenerateKey P224 with
    | Except.ok k => (some (PrivKey.ecdsa k), none)
    | Except.error e => (none, some e)
  else if cp.EcdsaCurve = P256 then
    match env.ecdsaGenerateKey P256 with
    | Except.ok k => (some (PrivKey.ecdsa k), none)
    | Except.error e => (none, some e)
  else if cp.EcdsaCurve = P384 then
    match env.ecdsaGenerateKey P384 with
    | Except.ok k => (some (PrivKey.ecdsa k), none)
    | Except.error e => (none, some e)
  else if cp.EcdsaCurve = P521 then
    match env.ecdsaGenerateKey P521 with
    | Except.ok k => (some (PrivKey.ecdsa k), none)
    | Except.error e => (none, some e)
  else (none, none)

/-- Embedding of Go `func genCertPair(cp *CertParams) (interface{}, []byte,
error)`: each error site returns `nil, nil, err` literally. -/
def genCertPair (env : CryptoEnv) (cp : CertParams) :
    Option PrivKey × Option (List Nat) × Option GenErr :=
  let ks := genKeyStep env cp
  match ks.2 with
  | some e => (none, none, some (GenErr.keyGen e))
  | none =>
    match env.randInt serialNumberLimit with
    | Except.error e => (none, none, some (GenErr.serialNum e))
    | Except.ok serialNumber =>
      let template := mkTemplate cp serialNumber
      match env.createCertificate template (publicKey ks.1) ks.1 with
      | Except.error e => (none, none, some (GenErr.createCert e))
      | Except.ok derBytes => (ks.1, some derBytes, none)

/-- Result of Go `func pemBlockForKey(priv interface{}) *pem.Block`: a real
block, the nil pointer of the `default` branch, or the `os.Exit(2)` taken when
ECDSA marshalling fails (after printing to stderr). -/
inductive PemBlockResult where
  | block (ty : String) (bytes : List Nat)
  | nilBlock
  | exitProcess (code : Nat)
  deriving DecidableEq

/-- Embedding of Go `pemBlockForKey`. -/
def pemBlockForKey (env : CryptoEnv) : Option PrivKey → PemBlockResult
  | some (PrivKey.rsa k) =>
    PemBlockResult.block "RSA PRIVATE KEY" (env.marshalPKCS1PrivateKey k)
  | some (PrivKey.ecdsa k) =>
    match env.marshalECPrivateKey k with
    | Except.ok b => PemBlockResult.block "EC PRIVATE KEY" b
    | Except.error _ => PemBlockResult.exitProcess 2
  | _ => PemBlockResult.nilBlock

/-- Outcome of Go `GenerateToMemory`: a normal return of the named results
(`cert`, `key` both PEM blocks modelled as type/bytes pairs, plus the error),
or the aborts hidden in the key path — the nil-block dereference inside
`pem.EncodeToMemory` and the `os.Exit` of `pemBlockForKey`. -/
inductive MemResult where
  | ret (cert : Option (String × List Nat)) (key : Option (String × List Nat))
      (err : Option GenErr)
  | panicked
  | exited (code : Nat)
  deriving DecidableEq

/-- Embedding of Go `func GenerateToMemory(cp *CertParams) (cert []byte,
key []byte, err error)`: on error the named returns are still nil. The PEM
text of a block is modelled by the pair of its type and bytes. -/
def GenerateToMemory (env : CryptoEnv) (cp : CertParams) : MemResult :=
  match genCertPair env cp with
  | (priv, derBytes, err) =>
    match err with
    | some e => MemResult.ret none none (some e)
    | none =>
      let cert := ("CERTIFICATE", derBytes.getD [])
      match pemBlockForKey env priv with
      | PemBlockResult.block ty b => MemResult.ret (some cert) (some (ty, b)) none
      | PemBlockResult.nilBlock => MemResult.panicked
      | PemBlockResult.exitProcess c => MemResult.exited c

/-- Parameter construction of `cmd/certgen/main.go` (lines 31-55): starting
from the zero-valued `&certgen.CertParams{}`, set `Hosts`, fall back to RSA
when `ECDSACurveFromString` errors, then set the remaining fields. The
empty-host fatal exit and the start-date parsing of `main` are outside this
definition (its callers' concern). -/
def mainBuildParams (host ecdsaCurveStr : String) (rsaBits : Int)
    (validFrom validFor : Int) (isCA : Bool) : CertParams :=
  let cp : CertParams :=
    { Hosts := "", ValidFrom := 0, ValidFor := 0, IsCA := false,
      Rsa := false, RsaBits := 0, EcdsaCurve := P224 }
  let cp := { cp with Hosts := host }
  let cp :=
    match ECDSACurveFromString ecdsaCurveStr with
    | (_, some _) => { cp with Rsa := true, RsaBits := rsaBits }
    | (e, none) => { cp with Rsa := false, EcdsaCurve := e }
  { cp with ValidFrom := validFrom, ValidFor := validFor, IsCA := isCA }


/-- Concrete parameter values used to instantiate theorems; only `Hosts`
varies, the key algorithm is the RSA default. -/
def exampleParams (hosts : String) : CertParams :=
  { Hosts := hosts, ValidFrom := 0, ValidFor := 0, IsCA := false,
    Rsa := true, RsaBits := 2048, EcdsaCurve := P224 }



/-- Concrete instantiation of the standard-library primitives behaving as Go's
do on the happy path: key generation and signing succeed, and, as in
`x509.CreateCertificate`, a nil private key (which does not implement
`crypto.Signer`) is rejected with an error. -/
def envStd : CryptoEnv :=
  { rsaGenerateKey := fun _ => Except.ok 1
    ecdsaGenerateKey := fun _ => Except.ok 2
    randInt := fun _ => Except.ok 0
    createCertificate := fun _ _ priv =>
      match priv with
      | none =>
        Except.error "x509: certificate private key does not implement crypto.Signer"
      | some _ => Except.ok [48]
    marshalPKCS1PrivateKey := fun _ => [48]
    marshalECPrivateKey := fun _ => Except.ok [48] }

/-- Concrete instantiation where the random source fails during RSA key
generation; everything else is as in `envStd`. -/
def envFailRsa : CryptoEnv :=
  { envStd with rsaGenerateKey := fun _ => Except.error "random source exhausted" }

/-- Parameters selecting ECDSA with the out-of-range curve value 7. -/
def cpCurve7 : CertParams :=
  { Hosts := "localhost", ValidFrom := 0, ValidFor := 0, IsCA := false,
    Rsa := false, RsaBits := 0, EcdsaCurve := 7 }

/-! ### Sanity checks: concrete evaluations of the embedded parsers -/

example : ParseIP "10.0.0.1".toList
    = some [0, 0, 0, 0, 0, 0, 0, 0, 0, 0, 0xff, 0xff, 10, 0, 0, 1] := by decide

example : ParseIP "::1".toList
    = some [0, 0, 0, 0, 0, 0, 0, 0, 0, 0, 0, 0, 0, 0, 0, 1] := by decide

example : ParseIP "example.com".toList = none := by decide

example : ParseIP "localhost".toList = none := by decide

example : ParseIP "".toList = none := by decide

example : ParseIP "2001:db8::68".toList
    = some [0x20, 0x01, 0x0d, 0xb8, 0, 0, 0, 0, 0, 0, 0, 0, 0, 0, 0, 0x68] := by decide

example : ParseIP "fe80::1%lo0".toList
    = some [0xfe, 0x80, 0, 0, 0, 0, 0, 0, 0, 0, 0, 0, 0, 0, 0, 1] := by decide

example : ParseIP "::ffff:10.0.0.1".toList
    = some [0, 0, 0, 0, 0, 0, 0, 0, 0, 0, 0xff, 0xff, 10, 0, 0, 1] := by decide

example : ParseIP "1:2:3:4:5:6:7:8".toList
    = some [0, 1, 0, 2, 0, 3, 0, 4, 0, 5, 0, 6, 0, 7, 0, 8] := by decide

example : ParseIP "1::8".toList
    = some [0, 1, 0, 0, 0, 0, 0, 0, 0, 0, 0, 0, 0, 0, 0, 8] := by decide

example : ParseIP "256.0.0.1".toList = none := by decide

example : ParseIP "1.2.3".toList = none := by decide

example : ParseIP "::".toList = some (List.replicate 16 0) := by decide

example : ParseIP "1:2::3:4:5:6:7:8".toList = none := by decide

example : splitComma "example.com,10.0.0.1,::1".toList
    = ["example.com".toList, "10.0.0.1".toList, "::1".toList] := by decide

example : splitComma "".toList = [[]] := by decide

example : splitComma ",".toList = [[], []] := by decide

theorem splitComma_ne_nil (s : List Char) : splitComma s ≠ [] := by
  induction s with
  | nil => simp [splitComma]
  | cons c cs ih =>
    unfold splitComma
    by_cases hc : c = ','
    · simp [hc]
    · simp only [hc, if_false]
      cases h : splitComma cs <;> simp

/-! ### Lemmas about the SAN loop and the template -/

theorem sanFold_sans (hosts : List (List Char)) (t : Certificate) :
    (hosts.foldl sanStep t).IPAddresses
        = t.IPAddresses ++ hosts.filterMap ParseIP
    ∧ (hosts.foldl sanStep t).DNSNames
        = t.DNSNames ++ hosts.filter (fun h => (ParseIP h).isNone) := by
  induction hosts generalizing t with
  | nil => simp
  | cons h hs ih =>
    simp only [List.foldl_cons, List.filterMap_cons, List.filter_cons]
    cases hp : ParseIP h with
    | some ip =>
      simp only [sanStep, hp]
      obtain ⟨h1, h2⟩ := ih { t with IPAddresses := t.IPAddresses ++ [ip] }
      rw [h1, h2]
      simp
    | none =>
      simp only [sanStep, hp]
      obtain ⟨h1, h2⟩ := ih { t with DNSNames := t.DNSNames ++ [h] }
      rw [h1, h2]
      simp

theorem sanFold_fields (hosts : List (List Char)) (t : Certificate) :
    (hosts.foldl sanStep t).SerialNumber = t.SerialNumber
    ∧ (hosts.foldl sanStep t).SubjectOrganization = t.SubjectOrganization
    ∧ (hosts.foldl sanStep t).NotBefore = t.NotBefore
    ∧ (hosts.foldl sanStep t).NotAfter = t.NotAfter
    ∧ (hosts.foldl sanStep t).KeyUsage = t.KeyUsage
    ∧ (hosts.foldl sanStep t).ExtKeyUsage = t.ExtKeyUsage
    ∧ (hosts.foldl sanStep t).BasicConstraintsValid = t.BasicConstraintsValid
    ∧ (hosts.foldl sanStep t).IsCA = t.IsCA := by
  induction hosts generalizing t with
  | nil => simp
  | cons h hs ih =>
    simp only [List.foldl_cons]
    cases hp : ParseIP h with
    | some ip =>
      simp only [sanStep, hp]
      simpa using ih { t with IPAddresses := t.IPAddresses ++ [ip] }
    | none =>
      simp only [sanStep, hp]
      simpa using ih { t with DNSNames := t.DNSNames ++ [h] }

theorem sanCountSplit (hosts : List (List Char)) :
    (hosts.filterMap ParseIP).length
      + (hosts.filter (fun h => (ParseIP h).isNone)).length = hosts.length := by
  induction hosts with
  | nil => simp
  | cons h hs ih =>
    cases hp : ParseIP h <;> simp [hp] <;> omega

theorem mkTemplate_fields (cp : CertParams) (serial : Nat) :
    (mkTemplate cp serial).SerialNumber = serial
    ∧ (mkTemplate cp serial).NotBefore = cp.ValidFrom
    ∧ (mkTemplate cp serial).NotAfter = cp.ValidFrom + cp.ValidFor
    ∧ (mkTemplate cp serial).BasicConstraintsValid = true
    ∧ (mkTemplate cp serial).IsCA = cp.IsCA
    ∧ (mkTemplate cp serial).KeyUsage = (if cp.IsCA then 37 else 5)
    ∧ (mkTemplate cp serial).IPAddresses
        = (splitComma cp.Hosts.toList).filterMap ParseIP
    ∧ (mkTemplate cp serial).DNSNames
        = (splitComma cp.Hosts.toList).filter (fun h => (ParseIP h).isNone) := by
  refine ⟨?_, ?_, ?_, ?_, ?_, ?_, ?_, ?_⟩ <;>
    (simp only [mkTemplate]
     cases hca : cp.IsCA <;>
       simp [sanFold_fields, sanFold_sans, CertParams.notAfter,
         KeyUsageKeyEncipherment, KeyUsageDigitalSignature, KeyUsageCertSign])

/-! ### Claim theorems -/
/-- Claim C1: `generate` splits `Hosts` on commas and, in input order,
classifies each entry as an IP SAN exactly when `net.ParseIP` accepts it and
as a DNS-name SAN otherwise; for hosts `"example.com,10.0.0.1,::1"` the SAN
set is exactly the DNS name `"example.com"` and the IP addresses `10.0.0.1`
and `::1`, in input order. -/
theorem c1_san_classification :
    (∀ (cp : CertParams) (serial : Nat),
        (mkTemplate cp serial).IPAddresses
            = (splitComma cp.Hosts.toList).filterMap ParseIP
          ∧ (mkTemplate cp serial).DNSNames
            = (splitComma cp.Hosts.toList).filter (fun h => (ParseIP h).isNone))
    ∧ (mkTemplate (exampleParams "example.com,10.0.0.1,::1") 0).DNSNames
        = ["example.com".toList]
    ∧ (mkTemplate (exampleParams "example.com,10.0.0.1,::1") 0).IPAddresses
        = [[0, 0, 0, 0, 0, 0, 0, 0, 0, 0, 0xff, 0xff, 10, 0, 0, 1],
           [0, 0, 0, 0, 0, 0, 0, 0, 0, 0, 0, 0, 0, 0, 0, 1]] := by
  refine ⟨fun cp serial => ⟨?_, ?_⟩, ?_, ?_⟩
  · exact (mkTemplate_fields cp serial).2.2.2.2.2.2.1
  · exact (mkTemplate_fields cp serial).2.2.2.2.2.2.2
  · decide
  · decide

/-- Claim C2: for every `CertParams` value, including a zero or negative
`ValidFor`, the template's `NotBefore` is exactly `ValidFrom` and its
`NotAfter` is exactly `ValidFrom + ValidFor` (plain addition, no clamping). -/
theorem c2_validity_window :
    ∀ (cp : CertParams) (serial : Nat),
      CertParams.notAfter cp = cp.ValidFrom + cp.ValidFor
      ∧ (mkTemplate cp serial).NotBefore = cp.ValidFrom
      ∧ (mkTemplate cp serial).NotAfter = cp.ValidFrom + cp.ValidFor := by
  intro cp serial
  exact ⟨rfl, (mkTemplate_fields cp serial).2.1, (mkTemplate_fields cp serial).2.2.1⟩

/-- Claim C3: the template's key usage always has the key-encipherment and
digital-signature bits; the certificate-signing bit is set exactly when
`IsCA` is, the template's CA flag mirrors `IsCA`, and
`BasicConstraintsValid` is always true. -/
theorem c3_key_usage :
    ∀ (cp : CertParams) (serial : Nat),
      (mkTemplate cp serial).KeyUsage &&& KeyUsageKeyEncipherment ≠ 0
      ∧ (mkTemplate cp serial).KeyUsage &&& KeyUsageDigitalSignature ≠ 0
      ∧ (mkTemplate cp serial).BasicConstraintsValid = true
      ∧ (mkTemplate cp serial).IsCA = cp.IsCA
      ∧ ((mkTemplate cp serial).KeyUsage &&& KeyUsageCertSign ≠ 0 ↔ cp.IsCA = true) := by
  intro cp serial
  obtain ⟨-, -, -, hb, hca, hku, -, -⟩ := mkTemplate_fields cp serial
  rw [hku]
  refine ⟨?_, ?_, hb, hca, ?_⟩ <;> cases h : cp.IsCA <;> simp [h] <;> decide

/-- Claim C10: the SAN loop never drops or merges entries: the number of IP
SANs plus DNS-name SANs equals the number of comma-separated segments of
`Hosts`, which is at least one; an empty `Hosts` string yields the single
empty-string DNS SAN, and stray commas yield empty-string DNS SANs rather
than a rejected request. -/
theorem c10_san_count :
    (∀ (cp : CertParams) (serial : Nat),
        (mkTemplate cp serial).IPAddresses.length
            + (mkTemplate cp serial).DNSNames.length
          = (splitComma cp.Hosts.toList).length)
    ∧ (∀ cp : CertParams, 1 ≤ (splitComma cp.Hosts.toList).length)
    ∧ (mkTemplate (exampleParams "") 0).DNSNames = [[]]
    ∧ (mkTemplate (exampleParams "") 0).IPAddresses = []
    ∧ (mkTemplate (exampleParams "a,,b") 0).DNSNames
        = ["a".toList, [], "b".toList] := by
  refine ⟨fun cp serial => ?_, fun cp => ?_, by decide, by decide, by decide⟩
  · obtain ⟨-, -, -, -, -, -, hip, hdns⟩ := mkTemplate_fields cp serial
    rw [hip, hdns]
    exact sanCountSplit (splitComma cp.Hosts.toList)
  · exact Nat.succ_le_of_lt (List.length_pos.mpr (splitComma_ne_nil _))

/-- Claim C9: round-trip of the curve-name encoding: for the four supported
curve constants, `ECDSACurveFromString` inverts `String()` with no error;
every other string maps to `(P224, error)`; and `String()` of any value
outside the four constants is the empty string. -/
theorem c9_curve_string_round_trip :
    (∀ e : ECDSACurve, e ∈ [P224, P256, P384, P521] →
        ECDSACurveFromString (ECDSACurve.string e) = (e, none))
    ∧ (∀ s : String, s ∉ ["P224", "P256", "P384", "P521"] →
        ECDSACurveFromString s
          = (P224, some "Invalid or Not supported ECDSA Curve"))
    ∧ (∀ e : ECDSACurve, e ∉ [P224, P256, P384, P521] →
        ECDSACurve.string e = "") := by
  refine ⟨?_, ?_, ?_⟩
  · intro e he
    simp only [List.mem_cons, List.not_mem_nil, or_false] at he
    rcases he with h | h | h | h <;> subst h <;> decide
  · intro s hs
    simp only [List.mem_cons, List.not_mem_nil, or_false, not_or] at hs
    obtain ⟨h1, h2, h3, h4⟩ := hs
    simp [ECDSACurveFromString, h1, h2, h3, h4]
  · intro e he
    simp only [List.mem_cons, List.not_mem_nil, or_false, not_or] at he
    obtain ⟨h1, h2, h3, h4⟩ := he
    simp [ECDSACurve.string, h1, h2, h3, h4]

theorem c9_curve_string_round_trip_witness :
    ECDSACurveFromString (ECDSACurve.string P384) = (P384, none)
    ∧ ECDSACurveFromString "P512"
        = (P224, some "Invalid or Not supported ECDSA Curve")
    ∧ ECDSACurve.string 7 = "" :=
  ⟨c9_curve_string_round_trip.1 P384 (by decide),
   c9_curve_string_round_trip.2.1 "P512" (by decide),
   c9_curve_string_round_trip.2.2 7 (by decide)⟩


/-! ### Lemmas about the key-selection and error phases of `genCertPair` -/

theorem genKeyStep_rsa_ok (env : CryptoEnv) (cp : CertParams) (k : Nat)
    (hRsa : cp.Rsa = true) (hk : env.rsaGenerateKey cp.RsaBits = Except.ok k) :
    genKeyStep env cp = (some (PrivKey.rsa k), none) := by
  simp [genKeyStep, hRsa, hk]

theorem genKeyStep_rsa_err (env : CryptoEnv) (cp : CertParams) (e : String)
    (hRsa : cp.Rsa = true)
    (hk : env.rsaGenerateKey cp.RsaBits = Except.error e) :
    genKeyStep env cp = (none, some e) := by
  simp [genKeyStep, hRsa, hk]

theorem genKeyStep_ecdsa_err (env : CryptoEnv) (cp : CertParams) (e : String)
    (hRsa : cp.Rsa = false) (hc : cp.EcdsaCurve ∈ [P224, P256, P384, P521])
    (hk : env.ecdsaGenerateKey cp.EcdsaCurve = Except.error e) :
    genKeyStep env cp = (none, some e) := by
  simp only [List.mem_cons, List.not_mem_nil, or_false] at hc
  rcases hc with h | h | h | h <;>
    · rw [h] at hk
      simp only [P224, P256, P384, P521] at h hk
      simp [genKeyStep, hRsa, h, hk, P224, P256, P384, P521]

theorem genKeyStep_curve_invalid (env : CryptoEnv) (cp : CertParams)
    (hRsa : cp.Rsa = false) (hc : cp.EcdsaCurve ∉ [P224, P256, P384, P521]) :
    genKeyStep env cp = (none, none) := by
  simp only [List.mem_cons, List.not_mem_nil, or_false, not_or] at hc
  obtain ⟨h1, h2, h3, h4⟩ := hc
  simp [genKeyStep, hRsa, h1, h2, h3, h4]

theorem genCertPair_keyGen_err (env : CryptoEnv) (cp : CertParams) (e : String)
    (hks : genKeyStep env cp = (none, some e)) :
    genCertPair env cp = (none, none, some (GenErr.keyGen e)) := by
  simp [genCertPair, hks]

theorem genCertPair_no_keyGen_of_keyStep_clean (env : CryptoEnv)
    (cp : CertParams) (pk : Option PrivKey)
    (hks : genKeyStep env cp = (pk, none)) :
    ∀ e : String, (genCertPair env cp).2.2 ≠ some (GenErr.keyGen e) := by
  intro e
  simp only [genCertPair, hks]
  cases hr : env.randInt serialNumberLimit with
  | error e2 => simp [hr]
  | ok r =>
    simp only [hr]
    cases hcc : env.createCertificate (mkTemplate cp r) (publicKey pk) pk with
    | error e2 => simp [hcc]
    | ok der => simp [hcc]

theorem genCertPair_nil_key_create_err (env : CryptoEnv) (cp : CertParams)
    (r : Nat) (e : String)
    (hks : genKeyStep env cp = (none, none))
    (hr : env.randInt serialNumberLimit = Except.ok r)
    (hcc : env.createCertificate (mkTemplate cp r) none none
      = Except.error e) :
    genCertPair env cp = (none, none, some (GenErr.createCert e)) := by
  simp [genCertPair, hks, hr, publicKey, hcc]

/-- Claim C6: any curve-name string outside P224/P256/P384/P521 (including
the empty string) makes the CLI parameter construction fall back to RSA with
the configured bit length, and generation then cannot fail with the
key-generation error class once RSA key generation itself succeeds. -/
theorem c6_curve_fallback :
    ∀ (host s : String) (bits va vf : Int) (ca : Bool),
      s ∉ ["P224", "P256", "P384", "P521"] →
      (mainBuildParams host s bits va vf ca).Rsa = true
      ∧ (mainBuildParams host s bits va vf ca).RsaBits = bits
      ∧ ∀ (env : CryptoEnv) (k : Nat),
          env.rsaGenerateKey bits = Except.ok k →
          ∀ e : String,
            (genCertPair env (mainBuildParams host s bits va vf ca)).2.2
              ≠ some (GenErr.keyGen e) := by
  intro host s bits va vf ca hs
  simp only [List.mem_cons, List.not_mem_nil, or_false, not_or] at hs
  obtain ⟨h1, h2, h3, h4⟩ := hs
  have hcp : mainBuildParams host s bits va vf ca
      = { Hosts := host, ValidFrom := va, ValidFor := vf, IsCA := ca,
          Rsa := true, RsaBits := bits, EcdsaCurve := P224 } := by
    simp [mainBuildParams, ECDSACurveFromString, h1, h2, h3, h4]
  refine ⟨by rw [hcp], by rw [hcp], ?_⟩
  intro env k hk e
  rw [hcp]
  exact genCertPair_no_keyGen_of_keyStep_clean env _ (some (PrivKey.rsa k))
    (genKeyStep_rsa_ok env _ k rfl hk) e

theorem c6_curve_fallback_witness :
    (mainBuildParams "localhost" "" 2048 0 0 false).Rsa = true
    ∧ (mainBuildParams "localhost" "" 2048 0 0 false).RsaBits = 2048
    ∧ ∀ (env : CryptoEnv) (k : Nat),
        env.rsaGenerateKey 2048 = Except.ok k →
        ∀ e : String,
          (genCertPair env (mainBuildParams "localhost" "" 2048 0 0 false)).2.2
            ≠ some (GenErr.keyGen e) :=
  c6_curve_fallback "localhost" "" 2048 0 0 false (by decide)

/-- Claim C5: the serial-number bound computed by the code,
`new(big.Int).Lsh(big.NewInt(1), 128)`, is exactly `2 ^ 128`; under the
`rand.Int` contract that the drawn value lies in `[0, limit)`, the template
stores the drawn value unchanged, so the certificate's serial number is a
non-negative integer strictly below `2 ^ 128`, and is uniform and independent
per call exactly as the draw is. -/
theorem c5_serial_number_range :
    ∀ (cp : CertParams) (r : Nat), r < serialNumberLimit →
      (mkTemplate cp r).SerialNumber = r
      ∧ (mkTemplate cp r).SerialNumber < 2 ^ 128
      ∧ serialNumberLimit = 2 ^ 128 := by
  intro cp r hr
  have hl : serialNumberLimit = 2 ^ 128 := by
    simp [serialNumberLimit, Nat.shiftLeft_eq]
  refine ⟨(mkTemplate_fields cp r).1, ?_, hl⟩
  rw [(mkTemplate_fields cp r).1]
  exact hl ▸ hr

theorem c5_serial_number_range_witness :
    (mkTemplate (exampleParams "localhost") 5).SerialNumber = 5
    ∧ (mkTemplate (exampleParams "localhost") 5).SerialNumber < 2 ^ 128
    ∧ serialNumberLimit = 2 ^ 128 :=
  c5_serial_number_range (exampleParams "localhost") 5
    (by norm_num [serialNumberLimit, Nat.shiftLeft_eq])
/-- Claim C7 counterexample: with ECDSA selected and the curve value 7
(outside the supported set), generation does not fail with the
key-generation error class: the ECDSA switch silently skips key generation
and the call fails at the signing step with the create-certificate
(SerializationError) class. -/
theorem c7_counterexample :
    (genCertPair envStd cpCurve7).2.2
      = some (GenErr.createCert
          "x509: certificate private key does not implement crypto.Signer") := by
  decide

/-- Claim C7 (amended): a failing RSA key generation (bit length below the
library minimum, or an exhausted random source) fails with the
KeyGenerationError class, and so does a failing ECDSA generation on any of
the four supported curves; but an ECDSA curve value outside the supported
set never yields that class: key generation is silently skipped and, since
the signer rejects the nil key, the call fails in the signing phase with the
SerializationError class. -/
theorem c7_keygen_error_class :
    (∀ (env : CryptoEnv) (cp : CertParams) (e : String),
        cp.Rsa = true → env.rsaGenerateKey cp.RsaBits = Except.error e →
        genCertPair env cp = (none, none, some (GenErr.keyGen e)))
    ∧ (∀ (env : CryptoEnv) (cp : CertParams) (e : String),
        cp.Rsa = false → cp.EcdsaCurve ∈ [P224, P256, P384, P521] →
        env.ecdsaGenerateKey cp.EcdsaCurve = Except.error e →
        genCertPair env cp = (none, none, some (GenErr.keyGen e)))
    ∧ (∀ (env : CryptoEnv) (cp : CertParams),
        cp.Rsa = false → cp.EcdsaCurve ∉ [P224, P256, P384, P521] →
        ∀ e : String, (genCertPair env cp).2.2 ≠ some (GenErr.keyGen e))
    ∧ (∀ (env : CryptoEnv) (cp : CertParams) (r : Nat) (e : String),
        cp.Rsa = false → cp.EcdsaCurve ∉ [P224, P256, P384, P521] →
        env.randInt serialNumberLimit = Except.ok r →
        env.createCertificate (mkTemplate cp r) none none = Except.error e →
        genCertPair env cp = (none, none, some (GenErr.createCert e))) := by
  refine ⟨?_, ?_, ?_, ?_⟩
  · intro env cp e hRsa hk
    exact genCertPair_keyGen_err env cp e (genKeyStep_rsa_err env cp e hRsa hk)
  · intro env cp e hRsa hc hk
    exact genCertPair_keyGen_err env cp e (genKeyStep_ecdsa_err env cp e hRsa hc hk)
  · intro env cp hRsa hc
    exact genCertPair_no_keyGen_of_keyStep_clean env cp none
      (genKeyStep_curve_invalid env cp hRsa hc)
  · intro env cp r e hRsa hc hr hcc
    exact genCertPair_nil_key_create_err env cp r e
      (genKeyStep_curve_invalid env cp hRsa hc) hr hcc

theorem c7_keygen_error_class_witness :
    genCertPair envFailRsa (exampleParams "localhost")
      = (none, none, some (GenErr.keyGen "random source exhausted"))
    ∧ genCertPair envStd cpCurve7
      = (none, none, some (GenErr.createCert
          "x509: certificate private key does not implement crypto.Signer")) :=
  ⟨c7_keygen_error_class.1 envFailRsa (exampleParams "localhost")
      "random source exhausted" rfl rfl,
   c7_keygen_error_class.2.2.2 envStd cpCurve7 0
      "x509: certificate private key does not implement crypto.Signer"
      rfl (by decide) rfl rfl⟩

/-- Claim C8: generation is all-or-nothing: whenever `genCertPair` reports an
error it returns nil for both the private key and the certificate bytes, and
whenever `GenerateToMemory` returns an error both the certificate PEM and the
key PEM are nil. -/
theorem c8_all_or_nothing :
    (∀ (env : CryptoEnv) (cp : CertParams) (e : GenErr),
        (genCertPair env cp).2.2 = some e →
        (genCertPair env cp).1 = none ∧ (genCertPair env cp).2.1 = none)
    ∧ (∀ (env : CryptoEnv) (cp : CertParams)
        (cert key : Option (String × List Nat)) (e : GenErr),
        GenerateToMemory env cp = MemResult.ret cert key (some e) →
        cert = none ∧ key = none) := by
  constructor
  · intro env cp e h
    simp only [genCertPair] at h ⊢
    cases hks : (genKeyStep env cp).2 with
    | some e1 => simp [hks]
    | none =>
      simp only [hks] at h ⊢
      cases hr : env.randInt serialNumberLimit with
      | error e2 => simp [hr]
      | ok r =>
        simp only [hr] at h ⊢
        cases hcc : env.createCertificate (mkTemplate cp r)
            (publicKey (genKeyStep env cp).1) (genKeyStep env cp).1 with
        | error e2 => simp [hcc]
        | ok der => simp [hcc] at h
  · intro env cp cert key e h
    simp only [GenerateToMemory] at h
    rcases hg : genCertPair env cp with ⟨priv, der, err⟩
    rw [hg] at h
    cases err with
    | some e2 =>
      simp only at h
      injection h with h1 h2 h3
      exact ⟨h1.symm, h2.symm⟩
    | none =>
      simp only at h
      cases hp : pemBlockForKey env priv <;> simp [hp] at h

theorem c8_all_or_nothing_witness :
    ((genCertPair envFailRsa (exampleParams "localhost")).1 = none
      ∧ (genCertPair envFailRsa (exampleParams "localhost")).2.1 = none)
    ∧ ((none : Option (String × List Nat)) = none
      ∧ (none : Option (String × List Nat)) = none) :=
  ⟨c8_all_or_nothing.1 envFailRsa (exampleParams "localhost")
      (GenErr.keyGen "random source exhausted") rfl,
   c8_all_or_nothing.2 envFailRsa (exampleParams "localhost") none none
      (GenErr.keyGen "random source exhausted") rfl⟩

/-- Claim C4 counterexample: for a private key of neither supported type,
`pemBlockForKey` returns the nil block; its return type carries no error at
all, so the claimed failure with a SerializationError does not happen. -/
theorem c4_counterexample :
    pemBlockForKey envStd (some PrivKey.other) = PemBlockResult.nilBlock := rfl

/-- Claim C4 (amended): the certificate is always emitted under PEM block
type CERTIFICATE; an RSA private key under "RSA PRIVATE KEY" with its PKCS#1
bytes and an ECDSA private key under "EC PRIVATE KEY" with its SEC1/EC bytes
when marshalling succeeds, while an ECDSA marshal failure exits the process
(a side effect in that branch); a key of neither type yields a nil PEM block
and no typed error rather than a SerializationError. Apart from the exit
branch the encoding touches no state. -/
theorem c4_pem_encoding :
    (∀ (env : CryptoEnv) (k : Nat),
        pemBlockForKey env (some (PrivKey.rsa k))
          = PemBlockResult.block "RSA PRIVATE KEY" (env.marshalPKCS1PrivateKey k))
    ∧ (∀ (env : CryptoEnv) (k : Nat) (b : List Nat),
        env.marshalECPrivateKey k = Except.ok b →
        pemBlockForKey env (some (PrivKey.ecdsa k))
          = PemBlockResult.block "EC PRIVATE KEY" b)
    ∧ (∀ (env : CryptoEnv) (k : Nat) (e : String),
        env.marshalECPrivateKey k = Except.error e →
        pemBlockForKey env (some (PrivKey.ecdsa k))
          = PemBlockResult.exitProcess 2)
    ∧ (∀ env : CryptoEnv,
        pemBlockForKey env (some PrivKey.other) = PemBlockResult.nilBlock)
    ∧ (∀ env : CryptoEnv, pemBlockForKey env none = PemBlockResult.nilBlock)
    ∧ (∀ (env : CryptoEnv) (cp : CertParams)
        (cert key : Option (String × List Nat)),
        GenerateToMemory env cp = MemResult.ret cert key none →
        ∃ b : List Nat, cert = some ("CERTIFICATE", b)) := by
  refine ⟨fun env k => rfl, ?_, ?_, fun env => rfl, fun env => rfl, ?_⟩
  · intro env k b hb
    simp [pemBlockForKey, hb]
  · intro env k e he
    simp [pemBlockForKey, he]
  · intro env cp cert key h
    simp only [GenerateToMemory] at h
    rcases hg : genCertPair env cp with ⟨priv, der, err⟩
    rw [hg] at h
    cases err with
    | some e2 => simp at h
    | none =>
      simp only at h
      cases hp : pemBlockForKey env priv <;> simp [hp] at h
      case block ty b =>
        exact ⟨der.getD [], h.1.symm⟩

theorem c4_pem_encoding_witness :
    pemBlockForKey envStd (some (PrivKey.ecdsa 2))
      = PemBlockResult.block "EC PRIVATE KEY" [48]
    ∧ ∃ b : List Nat,
        (some (("CERTIFICATE", [48]) : String × List Nat))
          = some (("CERTIFICATE", b) : String × List Nat) :=
  ⟨c4_pem_encoding.2.1 envStd 2 [48] rfl,
   c4_pem_encoding.2.2.2.2.2 envStd (exampleParams "localhost")
      (some ("CERTIFICATE", [48])) (some ("RSA PRIVATE KEY", [48]))
      (by decide)⟩
